import Mathlib

/-!
Shallow embedding of the session / chess-clock core of the code-red game
server (files app/managers/timer.py, app/managers/game.py, app/schemas.py).

Modelling conventions:
- Wall-clock timestamps are integers in milliseconds.  The Python code keeps
  timestamps as float seconds and computes elapsed milliseconds with
  int((now - last_ts) * 1000), truncating toward zero; we model the
  already-truncated millisecond values directly, so elapsed time is
  now - last_ts in whole milliseconds.
- Broadcasts (sio.emit) are modelled as an explicit list of Event values
  returned by each operation, in emission order.
- Mutable dictionaries keyed by game id are modelled as functions
  String -> Option _, updated functionally.
- Randomness (random.randint, random.uniform) is passed in as an explicit
  parameter representing the sampled value.
- A Python exception that no code catches (the ZeroDivisionError raised by
  a modulo with a zero seat count) is modelled by an Option result, none
  standing for the fault.
-/

namespace CodeRed

/-- Player seat record, from app/schemas.py PlayerState (fields the core
reads: id; name and score carried along). -/
structure PlayerState where
  id : String
  name : String
  score : Int
  deriving DecidableEq

/-- A placed tile of a move, from app/schemas.py PlacedTile (tile content
collapsed to its letter, the only payload the core ever echoes). -/
structure PlacedTile where
  row : Int
  col : Int
  letter : Option String
  deriving DecidableEq

/-- A move, from app/schemas.py Move. -/
structure Move where
  playerId : String
  tiles : List PlacedTile
  formedWords : List String
  totalPoints : Int
  deriving DecidableEq

/-- Timer snapshot, from app/schemas.py TimerState. -/
structure TimerState where
  player1Time : Int
  player2Time : Int
  currentPlayer : String
  isPaused : Bool
  deriving DecidableEq

/-- Per-session chess clock, from app/managers/timer.py GameClock.
Budgets are signed: they may transiently go negative after expiry. -/
structure GameClock where
  player1_ms : Int
  player2_ms : Int
  current : String
  paused : Bool
  last_ts : Int
  deriving DecidableEq

/-- GameClock.snapshot: budgets clamped to be nonnegative; the current
field is reported unchanged and nothing is mutated. -/
def GameClock.snapshot (c : GameClock) : TimerState :=
  { player1Time := max 0 c.player1_ms
    player2Time := max 0 c.player2_ms
    currentPlayer := if c.current = "player1" then "player1" else "player2"
    isPaused := c.paused }

/-- TimerManager._apply_elapsed: subtract the elapsed wall time from the
budget of the seat on the clock; a paused clock, or a nonpositive elapsed
value (clock skew), is a no-op. -/
def GameClock.apply_elapsed (c : GameClock) (now : Int) : GameClock :=
  if c.paused then c
  else
    let elapsed_ms := now - c.last_ts
    if elapsed_ms ≤ 0 then c
    else if c.current = "player1" then
      { c with player1_ms := c.player1_ms - elapsed_ms, last_ts := now }
    else
      { c with player2_ms := c.player2_ms - elapsed_ms, last_ts := now }

/-- The clock-level body of TimerManager.switch_turn: account elapsed time,
flip the seat on the clock, reset the accounting timestamp. -/
def GameClock.switch (c : GameClock) (now : Int) : GameClock :=
  let c1 := c.apply_elapsed now
  { c1 with
    current := if c1.current = "player1" then "player2" else "player1"
    last_ts := now }

/-- Events emitted through the broadcast channel (sio.emit), tagged with
the room (game id) they are sent to. -/
inductive Event where
  | game_state (game_id : String) (players : List PlayerState)
      (currentTurnPlayerId : Option String) (status : String)
  | move_made (game_id : String) (mv : Move)
  | turn_changed (game_id : String) (pid : Option String)
  | timer_expired (game_id : String) (loser : String)
  | timer_sync (game_id : String) (ts : TimerState)
  deriving DecidableEq

/-- The wire name each Event is emitted under in the Python code. -/
def Event.name : Event → String
  | .game_state _ _ _ _ => "game:state"
  | .move_made _ _ => "move-made"
  | .turn_changed _ _ => "turn-changed"
  | .timer_expired _ _ => "timer-expired"
  | .timer_sync _ _ => "timer-sync"

/-- TimerManager state: the clock dictionary and the set of game ids that
already have a background runner task (app/managers/timer.py). -/
structure TimerManager where
  clocks : String → Option GameClock
  tasks : List String

/-- The TimerManager constructed with no clocks and no runner tasks. -/
def TimerManager.initial : TimerManager :=
  { clocks := fun _ => none, tasks := [] }

/-- TimerManager.create_clock: store a fresh paused clock with full budgets
for the game id (replacing any previous clock), and launch a background
runner task only if none was launched for this id before. -/
def TimerManager.create_clock (tm : TimerManager) (game_id : String)
    (total_minutes_per_player : Int) (now : Int) : TimerManager × GameClock :=
  let total_ms := total_minutes_per_player * 60 * 1000
  let clock : GameClock :=
    { player1_ms := total_ms, player2_ms := total_ms, current := "player1"
      paused := true, last_ts := now }
  let tasks := if game_id ∈ tm.tasks then tm.tasks else tm.tasks ++ [game_id]
  ({ clocks := fun gid => if gid = game_id then some clock else tm.clocks gid
     tasks := tasks }, clock)

/-- TimerManager.start_turn: fetch the clock (creating a default 15-minute
one if absent), set the seat on the clock, unpause, reset the timestamp. -/
def TimerManager.start_turn (tm : TimerManager) (game_id current : String)
    (now : Int) : TimerManager :=
  let fetched :=
    match tm.clocks game_id with
    | some c => (tm, c)
    | none => tm.create_clock game_id 15 now
  let clock2 := { fetched.2 with current := current, paused := false, last_ts := now }
  { fetched.1 with
    clocks := fun gid => if gid = game_id then some clock2 else fetched.1.clocks gid }

/-- TimerManager.pause: account elapsed time, then mark the clock paused;
no-op when the game has no clock. -/
def TimerManager.pause (tm : TimerManager) (game_id : String) (now : Int) :
    TimerManager :=
  match tm.clocks game_id with
  | none => tm
  | some c =>
    let c2 := { c.apply_elapsed now with paused := true }
    { tm with clocks := fun gid => if gid = game_id then some c2 else tm.clocks gid }

/-- TimerManager.switch_turn: account elapsed time then flip the seat on
the clock; no-op when the game has no clock. -/
def TimerManager.switch_turn (tm : TimerManager) (game_id : String) (now : Int) :
    TimerManager :=
  match tm.clocks game_id with
  | none => tm
  | some c =>
    let c2 := c.switch now
    { tm with clocks := fun gid => if gid = game_id then some c2 else tm.clocks gid }

/-- TimerManager.get_state: apply elapsed time to the stored clock (a
mutation, kept in the returned manager) and return its clamped snapshot. -/
def TimerManager.get_state (tm : TimerManager) (game_id : String) (now : Int) :
    TimerManager × Option TimerState :=
  match tm.clocks game_id with
  | none => (tm, none)
  | some c =>
    let c2 := c.apply_elapsed now
    ({ tm with clocks := fun gid => if gid = game_id then some c2 else tm.clocks gid },
     some c2.snapshot)

/-- Automated-opponent binding, the dictionary stored in Game.bot
(fields the core reads: id and difficulty). -/
structure BotInfo where
  id : String
  difficulty : String
  deriving DecidableEq

/-- Per-session state, from app/managers/game.py Game.  The asyncio Task
handle held in the Python field _bot_task is modelled abstractly by the
numeric identity of the most recently created scheduled bot-move task
(bot_task), with next_task counting how many such tasks were created. -/
structure Game where
  id : String
  players : List PlayerState
  current_idx : Nat
  status : String
  board : List (List (Option String))
  bagCount : Int
  bot : Option BotInfo
  bot_task : Option Nat
  next_task : Nat

/-- Game.__init__. -/
def Game.init (game_id : String) : Game :=
  { id := game_id
    players := []
    current_idx := 0
    status := "waiting"
    board := List.replicate 15 (List.replicate 15 none)
    bagCount := 100
    bot := none
    bot_task := none
    next_task := 0 }

/-- Game.current_player: none on an empty roster, otherwise the player at
the turn pointer reduced modulo the roster length. -/
def Game.current_player (g : Game) : Option PlayerState :=
  if g.players.isEmpty then none
  else g.players.get? (g.current_idx % g.players.length)

/-- The payload of the game:state broadcast built by Game.to_state
(projected to the fields the claims mention). -/
def Game.to_state_event (g : Game) : Event :=
  Event.game_state g.id g.players ((g.current_player).map (fun p => p.id)) g.status

/-- Game._maybe_schedule_bot_move: when a bot is bound and the current
player is the bot, cancel any live scheduled task and create a fresh one
(the fresh task id becomes bot_task). -/
def Game.maybe_schedule_bot_move (g : Game) : Game :=
  match g.bot, g.current_player with
  | some b, some p =>
    if p.id = b.id then
      { g with bot_task := some g.next_task, next_task := g.next_task + 1 }
    else g
  | _, _ => g

/-- Game.start: with at least one seat, set status active, randomize the
starting index (r is the value sampled by random.randint(0, 1), used only
when two seats are present), recreate the clock, start the turn, and
broadcast the session snapshot.  There is no guard against the session
already being active. -/
def Game.start (g : Game) (tm : TimerManager) (r : Fin 2) (now : Int) :
    Game × TimerManager × List Event :=
  if 1 ≤ g.players.length then
    let g1 := { g with status := "active" }
    let g2 :=
      if 2 ≤ g1.players.length then { g1 with current_idx := r.val }
      else { g1 with current_idx := 0 }
    let tm1 := (tm.create_clock g.id 15 now).1
    let tm2 := tm1.start_turn g.id
      (if g2.current_idx = 0 then "player1" else "player2") now
    (g2, tm2, [g2.to_state_event])
  else (g, tm, [])

/-- Game.pass_turn: advance the turn pointer by one modulo the roster
length, switch the timer, broadcast turn-changed, then maybe schedule a
bot move.  On an empty roster the modulo raises ZeroDivisionError in
Python; modelled as none. -/
def Game.pass_turn (g : Game) (tm : TimerManager) (now : Int) :
    Option (Game × TimerManager × List Event) :=
  if g.players.length = 0 then none
  else
    let g1 := { g with current_idx := (g.current_idx + 1) % g.players.length }
    let tm1 := tm.switch_turn g.id now
    let ev := Event.turn_changed g.id ((g1.current_player).map (fun p => p.id))
    let g2 := g1.maybe_schedule_bot_move
    some (g2, tm1, [ev])

/-- Game.make_move: broadcast the move, then pass the turn.  No check of
the session status or of the mover is performed.  (When pass_turn faults
on an empty roster the already-emitted move broadcast is subsumed in the
none result.) -/
def Game.make_move (g : Game) (tm : TimerManager) (mv : Move) (now : Int) :
    Option (Game × TimerManager × List Event) :=
  match g.pass_turn tm now with
  | none => none
  | some (g2, tm2, evs) => some (g2, tm2, Event.move_made g.id mv :: evs)

/-- Process-wide registry, from app/managers/game.py GameManager. -/
structure GameManager where
  timer : TimerManager
  games : String → Option Game

/-- GameManager.__init__. -/
def GameManager.initial : GameManager :=
  { timer := TimerManager.initial, games := fun _ => none }

/-- GameManager.get_or_create: lazily create a fresh Game on first
reference by any operation. -/
def GameManager.get_or_create (gm : GameManager) (game_id : String) :
    GameManager × Game :=
  match gm.games game_id with
  | some g => (gm, g)
  | none =>
    let g := Game.init game_id
    ({ gm with games := fun gid => if gid = game_id then some g else gm.games gid }, g)

/-- Store an updated Game back into the registry. -/
def GameManager.put (gm : GameManager) (game_id : String) (g : Game) :
    GameManager :=
  { gm with games := fun gid => if gid = game_id then some g else gm.games gid }

/-- GameManager.add_player: append the seat unless a seat with the same
identity is already present; no capacity check of any kind; always
broadcast the session snapshot. -/
def GameManager.add_player (gm : GameManager) (game_id : String)
    (player : PlayerState) : GameManager × List Event :=
  let gc := gm.get_or_create game_id
  let g := gc.2
  let g2 :=
    if g.players.any (fun p => p.id = player.id) then g
    else { g with players := g.players ++ [player] }
  (gc.1.put game_id g2, [g2.to_state_event])

/-- GameManager.start_game. -/
def GameManager.start_game (gm : GameManager) (game_id : String) (r : Fin 2)
    (now : Int) : GameManager × List Event :=
  let gc := gm.get_or_create game_id
  let s := gc.2.start gc.1.timer r now
  ({ timer := s.2.1, games := (gc.1.put game_id s.1).games }, s.2.2)

/-- GameManager.make_move; none models the uncaught ZeroDivisionError. -/
def GameManager.make_move (gm : GameManager) (game_id : String) (mv : Move)
    (now : Int) : Option (GameManager × List Event) :=
  let gc := gm.get_or_create game_id
  match gc.2.make_move gc.1.timer mv now with
  | none => none
  | some (g2, tm2, evs) =>
    some ({ timer := tm2, games := (gc.1.put game_id g2).games }, evs)

/-- GameManager.pass_turn; none models the uncaught ZeroDivisionError. -/
def GameManager.pass_turn (gm : GameManager) (game_id : String) (now : Int) :
    Option (GameManager × List Event) :=
  let gc := gm.get_or_create game_id
  match gc.2.pass_turn gc.1.timer now with
  | none => none
  | some (g2, tm2, evs) =>
    some ({ timer := tm2, games := (gc.1.put game_id g2).games }, evs)

/-- GameManager.set_bot: record the binding on the game; nothing else
happens (no scheduling, no broadcast). -/
def GameManager.set_bot (gm : GameManager) (game_id : String)
    (bot_info : BotInfo) : GameManager :=
  let gc := gm.get_or_create game_id
  gc.1.put game_id { gc.2 with bot := some bot_info }

/-- GameManager.get_timer_state: delegate to the timer manager, keeping
the elapsed-time mutation it performs on the stored clock. -/
def GameManager.get_timer_state (gm : GameManager) (game_id : String)
    (now : Int) : GameManager × Option TimerState :=
  let r := gm.timer.get_state game_id now
  ({ gm with timer := r.1 }, r.2)

/-- Calling Game.start twice in a row, threading the produced state. -/
def Game.start_twice (g : Game) (tm : TimerManager) (r1 : Fin 2) (now1 : Int)
    (r2 : Fin 2) (now2 : Int) : Game × TimerManager × List Event :=
  let s1 := g.start tm r1 now1
  s1.1.start s1.2.1 r2 now2

/- Concrete fixtures used by counterexamples and witnesses. -/

def p_alice : PlayerState := { id := "alice", name := "Alice", score := 0 }

def p_bob : PlayerState := { id := "bob", name := "Bob", score := 0 }

def p_cara : PlayerState := { id := "cara", name := "Cara", score := 0 }

def mv_alice : Move :=
  { playerId := "alice", tiles := [], formedWords := [], totalPoints := 0 }

/-- A concrete active 2-seat session. -/
def two_seat_active : Game :=
  { Game.init "g" with players := [p_alice, p_bob], status := "active" }

/-- A concrete finished 2-seat session. -/
def finished_game : Game :=
  { Game.init "g" with players := [p_alice, p_bob], status := "finished" }

/-- A concrete waiting 2-seat session. -/
def two_seat_waiting : Game :=
  { Game.init "g" with players := [p_alice, p_bob] }

/-- The registry after admitting the two distinct seats alice and bob. -/
def gm_two_seats : GameManager :=
  ((GameManager.initial.add_player "g" p_alice).1.add_player "g" p_bob).1

/-- A seat occupied by an automated opponent. -/
def bot_seat : PlayerState := { id := "bot-beginner", name := "Bot", score := 0 }

/-- A beginner-tier automated-opponent binding for that seat. -/
def bot_info_beginner : BotInfo := { id := "bot-beginner", difficulty := "beginner" }

/-- An active session whose current seat is the bot seat, inside a
registry, with no scheduled action yet. -/
def gm_bot_active : GameManager :=
  { timer := TimerManager.initial
    games := fun gid =>
      if gid = "g" then
        some { Game.init "g" with players := [bot_seat], status := "active" }
      else none }

/-- The registry after the first start: seats alice and bob, started at
time 0 with the sampled starting index 0. -/
def gm_started : GameManager := (gm_two_seats.start_game "g" 0 0).1

/-- The registry after one second of play has been accounted against the
clock of the started session (a timer snapshot at time 1000). -/
def gm_ticked : GameManager := (gm_started.get_timer_state "g" 1000).1

/-- The registry after calling start a second time, at time 1000, with the
sampled starting index 1. -/
def gm_restarted : GameManager := (gm_ticked.start_game "g" 1 1000).1

/-- The result of one iteration of the TimerManager._run loop body:
updated clock, updated sync deadline (the _next_sync attribute stored on
the clock), emitted events, and whether the loop exited (break). -/
structure RunnerStep where
  clock : GameClock
  next_sync : Option Int
  events : List Event
  stopped : Bool
  deriving DecidableEq

/-- One iteration of TimerManager._run after the sleep: tick the clock,
check expiry (pause, emit timer-expired naming the losing seat — the
first seat when both are nonpositive — and break), otherwise emit a
timer-sync snapshot when the 5-second wall-clock sync deadline passed. -/
def runner_step (game_id : String) (now : Int) (c : GameClock)
    (next_sync : Option Int) : RunnerStep :=
  let c1 := c.apply_elapsed now
  if c1.player1_ms ≤ 0 ∨ c1.player2_ms ≤ 0 then
    { clock := { c1 with paused := true }
      next_sync := next_sync
      events := [Event.timer_expired game_id
        (if c1.player1_ms ≤ 0 then "player1" else "player2")]
      stopped := true }
  else
    let ns := match next_sync with | some t => t | none => now + 5000
    if ns ≤ now then
      { clock := c1, next_sync := some (now + 5000)
        events := [Event.timer_sync game_id c1.snapshot], stopped := false }
    else
      { clock := c1, next_sync := some ns, events := [], stopped := false }

/-- The TimerManager._run loop over a finite schedule of wakeups.  Each
wakeup carries its wall-clock time and an arbitrary interference function
standing for whatever the session operations (switch_turn, pause,
create_clock, ...) did to the stored clock since the previous wakeup (the
loop re-reads the clock dictionary each iteration).  Returns the emitted
events in order and the final clock. -/
def runner_loop (game_id : String) :
    List (Int × (GameClock → GameClock)) → GameClock → Option Int →
    List Event × GameClock
  | [], c, _ => ([], c)
  | (now, env) :: rest, c, ns =>
    let r := runner_step game_id now (env c) ns
    if r.stopped then (r.events, r.clock)
    else
      let r2 := runner_loop game_id rest r.clock r.next_sync
      (r.events ++ r2.1, r2.2)

/-- Whether an event is a timer-expired notification. -/
def Event.is_expired : Event → Bool
  | .timer_expired _ _ => true
  | _ => false

/-- True when no event at all follows a timer-expired event in the trace
(which also forces at most one timer-expired event in the trace). -/
def no_events_after_expiry : List Event → Bool
  | [] => true
  | e :: rest => if e.is_expired then rest.isEmpty else no_events_after_expiry rest

/-- Lifecycle status of one scheduled bot-move task (an asyncio.Task
running Game._bot_move_after). -/
inductive TaskStatus where
  | pending
  | cancelled
  | done
  deriving DecidableEq

/-- The scheduled-action state of one session: the status of every task
ever created (by its creation index), the task currently referenced by
the Game._bot_task field, and the next fresh index. -/
structure SchedState where
  task_status : Nat → Option TaskStatus
  bot_task : Option Nat
  next_id : Nat

/-- No task ever created: the state of a fresh Game. -/
def SchedState.initial : SchedState :=
  { task_status := fun _ => none, bot_task := none, next_id := 0 }

/-- The cancellation step at the head of Game._maybe_schedule_bot_move:
if the referenced task exists and is live (not done, not cancelled),
cancel it. -/
def SchedState.cancel_live (s : SchedState) : SchedState :=
  match s.bot_task with
  | some i =>
    if s.task_status i = some TaskStatus.pending then
      { s with task_status :=
          fun j => if j = i then some TaskStatus.cancelled else s.task_status j }
    else s
  | none => s

/-- Game._maybe_schedule_bot_move, task view: first cancel the referenced
live task if any, then create a fresh task and reference it. -/
def SchedState.arm (s : SchedState) : SchedState :=
  let s1 := s.cancel_live
  { task_status :=
      fun j => if j = s1.next_id then some TaskStatus.pending else s1.task_status j
    bot_task := some s1.next_id
    next_id := s1.next_id + 1 }

/-- The asyncio runtime delivering the delayed body of task i (the code
after await asyncio.sleep in Game._bot_move_after): it runs — applying
the bot move — only if the task is still pending; a cancelled task
receives CancelledError inside the sleep and never runs its body.
Returns the new state and whether the move was applied. -/
def SchedState.fire (s : SchedState) (i : Nat) : SchedState × Bool :=
  if s.task_status i = some TaskStatus.pending then
    ({ s with
        task_status := fun j => if j = i then some TaskStatus.done else s.task_status j },
     true)
  else (s, false)

/-- An event in the life of one session's scheduled actions: either the
session arms a (re)scheduled bot move, or the runtime fires task i. -/
inductive SchedEvent where
  | arm
  | fire (i : Nat)

/-- Run a sequence of scheduling events; returns the final state and the
creation indices of the tasks whose moves were actually applied, in
order. -/
def sched_run : SchedState → List SchedEvent → SchedState × List Nat
  | s, [] => (s, [])
  | s, SchedEvent.arm :: rest => sched_run s.arm rest
  | s, SchedEvent.fire i :: rest =>
    let f := s.fire i
    let r := sched_run f.1 rest
    (r.1, if f.2 then i :: r.2 else r.2)

/-- State invariant: indices at or beyond the fresh counter are unused,
and every pending task is the one referenced by the Game._bot_task
field. -/
def SchedState.invariant (s : SchedState) : Prop :=
  (∀ i, s.next_id ≤ i → s.task_status i = none) ∧
  (∀ i, s.task_status i = some TaskStatus.pending → s.bot_task = some i)

/- Helper lemmas about the clock primitives. -/

theorem apply_elapsed_current (c : GameClock) (now : Int) :
    (c.apply_elapsed now).current = c.current := by
  unfold GameClock.apply_elapsed
  by_cases hp : c.paused
  · simp [hp]
  · by_cases he : now - c.last_ts ≤ 0
    · simp [hp, he]
    · by_cases hc : c.current = "player1" <;> simp [hp, he, hc]

theorem apply_elapsed_budgets_le (c : GameClock) (now : Int) :
    (c.apply_elapsed now).player1_ms ≤ c.player1_ms ∧
    (c.apply_elapsed now).player2_ms ≤ c.player2_ms := by
  unfold GameClock.apply_elapsed
  by_cases hp : c.paused
  · simp [hp]
  · by_cases he : now - c.last_ts ≤ 0
    · simp [hp, he]
    · by_cases hc : c.current = "player1" <;> simp [hp, he, hc] <;> omega

theorem apply_elapsed_skew_eq (c : GameClock) (now : Int) (h : now ≤ c.last_ts) :
    c.apply_elapsed now = c := by
  unfold GameClock.apply_elapsed
  split
  · rfl
  · have : now - c.last_ts ≤ 0 := by omega
    simp [this]

/-- Claim C5: every snapshot reports both budgets clamped to be
nonnegative (even when the raw budget went negative after expiry), and
taking a snapshot via get_state never changes which seat is active: the
stored clock keeps its current seat and the reported snapshot names it. -/
theorem c5_snapshot_clamped_and_preserves_active :
    (∀ c : GameClock, 0 ≤ c.snapshot.player1Time ∧ 0 ≤ c.snapshot.player2Time) ∧
    (∀ (tm : TimerManager) (gid : String) (now : Int),
      (((tm.get_state gid now).1.clocks gid).map (fun c => c.current)
        = (tm.clocks gid).map (fun c => c.current)) ∧
      (∀ ts ∈ (tm.get_state gid now).2,
        0 ≤ ts.player1Time ∧ 0 ≤ ts.player2Time)) := by
  constructor
  · intro c
    exact ⟨le_max_left 0 _, le_max_left 0 _⟩
  · intro tm gid now
    unfold TimerManager.get_state
    constructor
    · cases h : tm.clocks gid with
      | none => simp [h]
      | some c =>
        simp [h, apply_elapsed_current]
    · intro ts hts
      cases h : tm.clocks gid with
      | none => simp [h] at hts
      | some c =>
        simp [h] at hts
        subst hts
        exact ⟨le_max_left 0 _, le_max_left 0 _⟩

/-- Witness for C5 at a concrete clock and manager. -/
theorem c5_snapshot_clamped_and_preserves_active_witness :
    ∃ ts, (TimerManager.get_state
        { clocks := fun gid => if gid = "g" then
            some { player1_ms := -250, player2_ms := 4000, current := "player2"
                   paused := false, last_ts := 0 } else none
          tasks := ["g"] } "g" 100).2 = some ts ∧
      0 ≤ ts.player1Time ∧ 0 ≤ ts.player2Time := by
  refine ⟨{ player1Time := 0, player2Time := 3900, currentPlayer := "player2"
            isPaused := false }, ?_, ?_⟩
  · rfl
  · exact (c5_snapshot_clamped_and_preserves_active.2
      { clocks := fun gid => if gid = "g" then
          some { player1_ms := -250, player2_ms := 4000, current := "player2"
                 paused := false, last_ts := 0 } else none
        tasks := ["g"] } "g" 100).2 _ (by rfl)

/-- Claim C6: two switch calls in immediate succession (each computed
elapsed time nonpositive) flip the active seat twice, returning it to the
original seat, and leave both budgets exactly unchanged; and elapsed-time
accounting never increases any budget. -/
theorem c6_switch_twice_skew_noop :
    (∀ (c : GameClock) (now1 now2 : Int),
      (c.current = "player1" ∨ c.current = "player2") →
      now1 ≤ c.last_ts → now2 ≤ now1 →
      ((c.switch now1).switch now2).current = c.current ∧
      ((c.switch now1).switch now2).player1_ms = c.player1_ms ∧
      ((c.switch now1).switch now2).player2_ms = c.player2_ms) ∧
    (∀ (c : GameClock) (now : Int),
      (c.apply_elapsed now).player1_ms ≤ c.player1_ms ∧
      (c.apply_elapsed now).player2_ms ≤ c.player2_ms) := by
  constructor
  · intro c now1 now2 hcur h1 h2
    have e1 : now1 - c.last_ts ≤ 0 := by omega
    have e2 : now2 - now1 ≤ 0 := by omega
    by_cases hp : c.paused <;>
      rcases hcur with h | h <;>
      simp [GameClock.switch, GameClock.apply_elapsed, hp, h, e1, e2]
  · exact apply_elapsed_budgets_le

/-- Witness for C6 at a concrete clock: both switches at timestamps not
later than the stored timestamp. -/
theorem c6_switch_twice_skew_noop_witness :
    let c : GameClock :=
      { player1_ms := 900000, player2_ms := 880000, current := "player1"
        paused := false, last_ts := 50 }
    ((c.switch 50).switch 49).current = "player1" ∧
    ((c.switch 50).switch 49).player1_ms = 900000 ∧
    ((c.switch 50).switch 49).player2_ms = 880000 := by
  intro c
  exact c6_switch_twice_skew_noop.1 c 50 49 (Or.inl rfl)
    (by norm_num) (by norm_num)

/- Helper lemmas: scheduling a bot move touches only the task fields. -/

theorem maybe_schedule_preserves (g : Game) :
    (g.maybe_schedule_bot_move).id = g.id ∧
    (g.maybe_schedule_bot_move).players = g.players ∧
    (g.maybe_schedule_bot_move).current_idx = g.current_idx ∧
    (g.maybe_schedule_bot_move).status = g.status ∧
    (g.maybe_schedule_bot_move).bot = g.bot := by
  unfold Game.maybe_schedule_bot_move
  rcases hb : g.bot with _ | b <;> rcases hp : g.current_player with _ | p <;>
    simp [hb, hp]
  by_cases h : p.id = b.id <;> simp [h, hb]

theorem maybe_schedule_id (g : Game) :
    (g.maybe_schedule_bot_move).id = g.id := (maybe_schedule_preserves g).1

theorem maybe_schedule_players (g : Game) :
    (g.maybe_schedule_bot_move).players = g.players :=
  (maybe_schedule_preserves g).2.1

theorem maybe_schedule_current_idx (g : Game) :
    (g.maybe_schedule_bot_move).current_idx = g.current_idx :=
  (maybe_schedule_preserves g).2.2.1

theorem maybe_schedule_status (g : Game) :
    (g.maybe_schedule_bot_move).status = g.status :=
  (maybe_schedule_preserves g).2.2.2.1

/-- Claim C9: turn advancement via pass_turn is a single increment of the
current seat index modulo the seat count, so on a 2-seat session two
consecutive pass_turn calls return the current seat to the seat that was
current before the first call. -/
theorem c9_pass_turn_single_increment_parity :
    ∀ (g : Game) (tm : TimerManager) (now1 now2 : Int),
      g.players.length = 2 →
      ((g.pass_turn tm now1).map (fun x => x.1.current_idx)
        = some ((g.current_idx + 1) % g.players.length)) ∧
      (((g.pass_turn tm now1).bind
          (fun x => x.1.pass_turn x.2.1 now2)).map (fun x => x.1.current_player)
        = some g.current_player) := by
  intro g tm now1 now2 hlen
  have hne : ¬ g.players.length = 0 := by omega
  constructor
  · simp [Game.pass_turn, hne, maybe_schedule_current_idx]
  · obtain ⟨a, b, hab⟩ := List.length_eq_two.mp hlen
    have harith : (g.current_idx + 1 + 1) % 2 = g.current_idx % 2 := by
      omega
    simp [Game.pass_turn, hne, maybe_schedule_players, maybe_schedule_current_idx,
      Game.current_player, hab]
    rw [harith]

/-- Witness for C9 on a concrete 2-seat session. -/
theorem c9_pass_turn_single_increment_parity_witness :
    ((two_seat_active.pass_turn TimerManager.initial 0).map
        (fun x => x.1.current_idx) = some 1) ∧
    (((two_seat_active.pass_turn TimerManager.initial 0).bind
        (fun x => x.1.pass_turn x.2.1 0)).map (fun x => x.1.current_player)
      = some (some p_alice)) := by
  have h := c9_pass_turn_single_increment_parity two_seat_active
    TimerManager.initial 0 0 (by rfl)
  exact ⟨h.1, h.2⟩

/-- Claim C10: a session produced by lazy creation-on-first-reference has
an empty roster, and pass_turn on it (hence make_move, which delegates to
pass_turn) hits the unguarded modulo by the roster length zero and faults
with ZeroDivisionError (modelled by none) instead of completing. -/
theorem c10_empty_roster_pass_turn_faults :
    ∀ (gm : GameManager) (gid : String) (mv : Move) (now : Int),
      gm.games gid = none →
      (gm.get_or_create gid).2.players = [] ∧
      GameManager.pass_turn gm gid now = none ∧
      GameManager.make_move gm gid mv now = none := by
  intro gm gid mv now h
  refine ⟨?_, ?_, ?_⟩ <;>
    simp [GameManager.get_or_create, h, Game.init, GameManager.pass_turn,
      GameManager.make_move, Game.pass_turn, Game.make_move]

/-- Witness for C10 on the freshly constructed registry. -/
theorem c10_empty_roster_pass_turn_faults_witness :
    (GameManager.initial.get_or_create "g").2.players = [] ∧
    GameManager.pass_turn GameManager.initial "g" 0 = none ∧
    GameManager.make_move GameManager.initial "g" mv_alice 0 = none :=
  c10_empty_roster_pass_turn_faults GameManager.initial "g" mv_alice 0 rfl

/-- Counterexample to claim C2: make_move on a Finished 2-seat session is
not rejected: it changes the turn pointer from 0 to 1 and emits the
move-made and turn-changed broadcasts. -/
theorem c2_counterexample_finished_move_accepted :
    (finished_game.make_move TimerManager.initial mv_alice 0).map
      (fun x => (x.1.current_idx, x.1.status, x.2.2.map Event.name))
    = some (1, "finished", ["move-made", "turn-changed"]) := by
  rfl

/-- Claim C2 as amended: make_move performs no status check at all.  On
any session with a nonempty roster — whatever its status (waiting, active
or finished) — it broadcasts the move followed by turn-changed, advances
the turn pointer by one modulo the roster length, and leaves the status
field untouched. -/
theorem c2_amended_no_status_check :
    ∀ (g : Game) (tm : TimerManager) (mv : Move) (now : Int),
      g.players ≠ [] →
      ((g.make_move tm mv now).map (fun x => x.1.current_idx)
        = some ((g.current_idx + 1) % g.players.length)) ∧
      ((g.make_move tm mv now).map (fun x => x.1.status) = some g.status) ∧
      ((g.make_move tm mv now).map (fun x => x.2.2.map Event.name)
        = some ["move-made", "turn-changed"]) := by
  intro g tm mv now h
  have hne : ¬ g.players.length = 0 := by
    simpa using fun h0 => h (List.length_eq_zero.mp h0)
  refine ⟨?_, ?_, ?_⟩ <;>
    simp [Game.make_move, Game.pass_turn, hne, maybe_schedule_current_idx,
      maybe_schedule_status, Event.name]

/-- Witness for amended C2 on a concrete waiting session. -/
theorem c2_amended_no_status_check_witness :
    ((two_seat_waiting.make_move TimerManager.initial mv_alice 0).map
        (fun x => x.1.current_idx) = some 1) ∧
    ((two_seat_waiting.make_move TimerManager.initial mv_alice 0).map
        (fun x => x.1.status) = some "waiting") ∧
    ((two_seat_waiting.make_move TimerManager.initial mv_alice 0).map
        (fun x => x.2.2.map Event.name)
      = some ["move-made", "turn-changed"]) := by
  exact c2_amended_no_status_check two_seat_waiting TimerManager.initial
    mv_alice 0 (by simp [two_seat_waiting])

/-- Counterexample to claim C3: admitting three distinct identities grows
the roster to 3 seats — there is no capacity bound at 2. -/
theorem c3_counterexample_third_seat_admitted :
    (((((GameManager.initial.add_player "g" p_alice).1.add_player "g" p_bob).1.add_player
        "g" p_cara).1.games "g").map (fun g => g.players.length))
    = some 3 := by
  rfl

/-- Claim C3 as amended: add_player appends a seat whenever no existing
seat has the same identity, with no capacity check whatsoever (the roster
can exceed 2 seats); re-admitting an already-present identity leaves the
roster unchanged. -/
theorem c3_amended_no_capacity_check :
    ∀ (gm : GameManager) (gid : String) (p : PlayerState) (g : Game),
      gm.games gid = some g →
      ((g.players.any (fun q => q.id = p.id)) = false →
        ((gm.add_player gid p).1.games gid).map (fun h => h.players)
          = some (g.players ++ [p])) ∧
      ((g.players.any (fun q => q.id = p.id)) = true →
        ((gm.add_player gid p).1.games gid).map (fun h => h.players)
          = some g.players) := by
  intro gm gid p g h
  constructor <;> intro hdup <;>
    simp [GameManager.add_player, GameManager.get_or_create, GameManager.put,
      h, hdup]

/-- Witness for amended C3: a third distinct seat is appended to a 2-seat
roster. -/
theorem c3_amended_no_capacity_check_witness :
    ((gm_two_seats.add_player "g" p_cara).1.games "g").map (fun h => h.players)
      = some ([p_alice, p_bob] ++ [p_cara]) := by
  exact (c3_amended_no_capacity_check gm_two_seats "g" p_cara
    two_seat_waiting (by rfl)).1 (by rfl)

/-- Counterexample to claim C8: set_bot on a session whose currently
active seat is exactly the bound seat records the binding but arms no
ScheduledAction (the task field stays empty): nothing is armed until the
next turn switch. -/
theorem c8_counterexample_no_immediate_arming :
    (((gm_bot_active.set_bot "g" bot_info_beginner).games "g").map
      (fun g => (g.bot, g.bot_task, g.current_player))
    = some (some bot_info_beginner, none, some bot_seat)) := by
  rfl

/-- Claim C8 as amended: set_bot only records the automated-opponent
binding (every other field, in particular the scheduled-task field, is
unchanged); a ScheduledAction for the bot is armed only when
maybe_schedule_bot_move runs at the next turn advancement and finds the
bot on turn. -/
theorem c8_amended_set_bot_only_records :
    (∀ (gm : GameManager) (gid : String) (info : BotInfo),
      (gm.set_bot gid info).games gid
        = some { (gm.get_or_create gid).2 with bot := some info }) ∧
    (∀ (g : Game) (b : BotInfo) (p : PlayerState),
      g.bot = some b → g.current_player = some p → p.id = b.id →
      (g.maybe_schedule_bot_move).bot_task = some g.next_task) := by
  constructor
  · intro gm gid info
    simp [GameManager.set_bot, GameManager.put]
  · intro g b p hb hp hid
    unfold Game.maybe_schedule_bot_move
    rw [hb, hp]
    simp [hid]

/-- Witness for amended C8 on the concrete bot-bound registry. -/
theorem c8_amended_set_bot_only_records_witness :
    ((gm_bot_active.set_bot "g" bot_info_beginner).games "g"
      = some { (gm_bot_active.get_or_create "g").2 with bot := some bot_info_beginner }) ∧
    (Game.maybe_schedule_bot_move
        { Game.init "g" with
            players := [bot_seat]
            status := "active"
            bot := some bot_info_beginner }).bot_task = some 0 := by
  constructor
  · exact c8_amended_set_bot_only_records.1 gm_bot_active "g" bot_info_beginner
  · exact c8_amended_set_bot_only_records.2 _ bot_info_beginner bot_seat
      rfl rfl rfl

/-- Counterexample to claim C1: the second start call on the already
active session re-randomizes the starting seat index (0 becomes 1, the
newly sampled value) and recreates the Clock, resetting the first seat
budget from the 899000 ms it had reached back to the full 900000 ms. -/
theorem c1_counterexample_restart_not_noop :
    ((gm_started.games "g").map (fun g => g.current_idx) = some 0) ∧
    ((gm_ticked.timer.clocks "g").map (fun c => c.player1_ms) = some 899000) ∧
    ((gm_restarted.games "g").map (fun g => g.current_idx) = some 1) ∧
    ((gm_restarted.timer.clocks "g").map (fun c => (c.player1_ms, c.player2_ms))
      = some (900000, 900000)) := by
  exact ⟨rfl, rfl, rfl, rfl⟩

/-- Claim C1 as amended: calling start a second time while the session is
already Active is not a no-op: with 2 seats it sets the starting seat
index to the freshly sampled random value and replaces the Clock by a
fresh one with both budgets reset to the full 15 minutes; only the
background runner task is not duplicated — after the two calls the task
table holds exactly one runner for the session. -/
theorem c1_amended_restart_rerandomizes_and_resets :
    ∀ (g : Game) (tm : TimerManager) (r1 : Fin 2) (now1 : Int) (r2 : Fin 2)
      (now2 : Int),
      g.players.length = 2 →
      tm.tasks.count g.id = 0 →
      ((g.start_twice tm r1 now1 r2 now2).1.current_idx = r2.val) ∧
      ((g.start_twice tm r1 now1 r2 now2).2.1.clocks g.id = some
        { player1_ms := 900000, player2_ms := 900000
          current := if r2.val = 0 then "player1" else "player2"
          paused := false, last_ts := now2 }) ∧
      ((g.start_twice tm r1 now1 r2 now2).2.1.tasks.count g.id = 1) := by
  intro g tm r1 now1 r2 now2 hlen hcount
  have hnot : g.id ∉ tm.tasks := by
    intro hmem
    have := List.count_pos_iff.mpr hmem
    omega
  have hone : 1 ≤ g.players.length := by omega
  have htwo : 2 ≤ g.players.length := by omega
  have hmem2 : g.id ∈ tm.tasks ++ [g.id] := by simp
  have hcnt : (tm.tasks ++ [g.id]).count g.id = 1 := by
    rw [List.count_append]
    simp [List.count_eq_zero.mpr hnot]
  have hms : (15 : Int) * 60 * 1000 = 900000 := by norm_num
  unfold Game.start_twice Game.start TimerManager.create_clock
    TimerManager.start_turn
  simp [hone, htwo, hlen, hnot, hmem2, hcnt, hms]

/-- Witness for amended C1 at a concrete session and sampled values. -/
theorem c1_amended_restart_rerandomizes_and_resets_witness :
    ((two_seat_waiting.start_twice TimerManager.initial 0 0 1 1000).1.current_idx
      = 1) ∧
    ((two_seat_waiting.start_twice TimerManager.initial 0 0 1 1000).2.1.clocks "g"
      = some { player1_ms := 900000, player2_ms := 900000, current := "player2"
               paused := false, last_ts := 1000 }) ∧
    ((two_seat_waiting.start_twice TimerManager.initial 0 0 1 1000).2.1.tasks.count "g"
      = 1) := by
  have h := c1_amended_restart_rerandomizes_and_resets two_seat_waiting
    TimerManager.initial 0 0 1 1000 (by rfl) (by rfl)
  exact ⟨h.1, h.2.1, h.2.2⟩

theorem no_events_after_expiry_append (l1 l2 : List Event)
    (h : ∀ e ∈ l1, e.is_expired = false) :
    no_events_after_expiry (l1 ++ l2) = no_events_after_expiry l2 := by
  induction l1 with
  | nil => rfl
  | cons e l ih =>
    have he : e.is_expired = false := h e (by simp)
    simp only [List.cons_append, no_events_after_expiry, he]
    exact ih (fun x hx => h x (by simp [hx]))

theorem runner_step_not_stopped_no_expired (gid : String) (now : Int)
    (c : GameClock) (ns : Option Int)
    (h : ¬ (runner_step gid now c ns).stopped = true) :
    ∀ e ∈ (runner_step gid now c ns).events, e.is_expired = false := by
  by_cases hexp : (c.apply_elapsed now).player1_ms ≤ 0 ∨
      (c.apply_elapsed now).player2_ms ≤ 0
  · exfalso
    apply h
    unfold runner_step
    simp [hexp]
  · intro e he
    unfold runner_step at he
    cases ns with
    | none =>
      by_cases hs : now + 5000 ≤ now
      · simp [hexp, hs] at he
        subst he
        rfl
      · simp [hexp, hs] at he
    | some t =>
      by_cases hs : t ≤ now
      · simp [hexp, hs] at he
        subst he
        rfl
      · simp [hexp, hs] at he

theorem runner_step_stopped_events (gid : String) (now : Int) (c : GameClock)
    (ns : Option Int) (h : (runner_step gid now c ns).stopped = true) :
    ∃ l, (runner_step gid now c ns).events = [Event.timer_expired gid l] := by
  by_cases hexp : (c.apply_elapsed now).player1_ms ≤ 0 ∨
      (c.apply_elapsed now).player2_ms ≤ 0
  · refine ⟨if (c.apply_elapsed now).player1_ms ≤ 0 then "player1" else "player2", ?_⟩
    unfold runner_step
    simp [hexp]
  · exfalso
    unfold runner_step at h
    cases ns with
    | none => by_cases hs : now + 5000 ≤ now <;> simp [hexp, hs] at h
    | some t => by_cases hs : t ≤ now <;> simp [hexp, hs] at h

/-- Claim C4: (step) once either raw unclamped budget is nonpositive
after the tick, the runner pauses the Clock, emits exactly one
timer-expired event identifying the losing seat, and stops; (loop) in any
run of the loop — under arbitrary interleaved clock mutations — no event
whatsoever is emitted after a timer-expired event, so the expiry
notification is unique and terminal for the session. -/
theorem c4_runner_expiry_terminal :
    (∀ (gid : String) (now : Int) (c : GameClock) (ns : Option Int),
      ((c.apply_elapsed now).player1_ms ≤ 0 ∨
        (c.apply_elapsed now).player2_ms ≤ 0) →
      runner_step gid now c ns =
        { clock := { c.apply_elapsed now with paused := true }
          next_sync := ns
          events := [Event.timer_expired gid
            (if (c.apply_elapsed now).player1_ms ≤ 0 then "player1" else "player2")]
          stopped := true }) ∧
    (∀ (gid : String) (ticks : List (Int × (GameClock → GameClock)))
        (c : GameClock) (ns : Option Int),
      no_events_after_expiry (runner_loop gid ticks c ns).1 = true) := by
  constructor
  · intro gid now c ns hexp
    unfold runner_step
    simp [hexp]
  · intro gid ticks
    induction ticks with
    | nil => intro c ns; rfl
    | cons t rest ih =>
      intro c ns
      obtain ⟨now, env⟩ := t
      simp only [runner_loop]
      by_cases hstop : (runner_step gid now (env c) ns).stopped = true
      · rw [if_pos hstop]
        obtain ⟨l, hl⟩ := runner_step_stopped_events gid now (env c) ns hstop
        rw [hl]
        rfl
      · rw [if_neg hstop]
        rw [no_events_after_expiry_append _ _
          (runner_step_not_stopped_no_expired gid now (env c) ns hstop)]
        exact ih _ _

/-- Witness for C4: a concrete overrun clock makes the step pause, emit
the single expiry naming seat 1, and stop; a concrete three-wakeup run
whose second wakeup expires emits nothing afterward. -/
theorem c4_runner_expiry_terminal_witness :
    (runner_step "g" 1000
        { player1_ms := 500, player2_ms := 900000, current := "player1"
          paused := false, last_ts := 0 } none =
      { clock := { player1_ms := -500, player2_ms := 900000, current := "player1"
                   paused := true, last_ts := 1000 }
        next_sync := none
        events := [Event.timer_expired "g" "player1"]
        stopped := true }) ∧
    (no_events_after_expiry
      (runner_loop "g" [(100, fun c => c), (1000, fun c => c), (2000, fun c => c)]
        { player1_ms := 500, player2_ms := 900000, current := "player1"
          paused := false, last_ts := 0 } none).1 = true) := by
  constructor
  · exact c4_runner_expiry_terminal.1 "g" 1000
      { player1_ms := 500, player2_ms := 900000, current := "player1"
        paused := false, last_ts := 0 } none (by left; decide)
  · exact c4_runner_expiry_terminal.2 "g"
      [(100, fun c => c), (1000, fun c => c), (2000, fun c => c)]
      { player1_ms := 500, player2_ms := 900000, current := "player1"
        paused := false, last_ts := 0 } none

theorem sched_initial_invariant : SchedState.initial.invariant := by
  constructor
  · intro i _
    rfl
  · intro i h
    simp [SchedState.initial] at h

theorem cancel_live_next_id (s : SchedState) :
    (s.cancel_live).next_id = s.next_id := by
  unfold SchedState.cancel_live
  cases hb : s.bot_task with
  | none => rfl
  | some k =>
    by_cases hk : s.task_status k = some TaskStatus.pending <;> simp [hk]

theorem cancel_live_status_cases (s : SchedState) (j : Nat) :
    (s.cancel_live).task_status j = s.task_status j ∨
    ((s.cancel_live).task_status j = some TaskStatus.cancelled ∧
      s.bot_task = some j ∧ s.task_status j = some TaskStatus.pending) := by
  unfold SchedState.cancel_live
  cases hb : s.bot_task with
  | none => left; rfl
  | some k =>
    by_cases hk : s.task_status k = some TaskStatus.pending
    · by_cases hjk : j = k
      · right
        subst hjk
        exact ⟨by simp [hk], rfl, hk⟩
      · left
        simp [hk, hjk]
    · left
      simp [hk]

theorem cancel_live_no_pending (s : SchedState) (hs : s.invariant) (j : Nat) :
    ¬ (s.cancel_live).task_status j = some TaskStatus.pending := by
  intro hp
  unfold SchedState.cancel_live at hp
  cases hb : s.bot_task with
  | none =>
    simp only [hb] at hp
    have h := hs.2 j hp
    rw [h] at hb
    exact Option.noConfusion hb
  | some k =>
    simp only [hb] at hp
    by_cases hk : s.task_status k = some TaskStatus.pending
    · by_cases hjk : j = k
      · simp [hk, hjk] at hp
      · simp [hk, hjk] at hp
        have h := hs.2 j hp
        rw [h] at hb
        exact hjk (Option.some.inj hb)
    · simp [hk] at hp
      have h := hs.2 j hp
      rw [h] at hb
      exact hk ((Option.some.inj hb) ▸ hp)

theorem cancel_live_keeps_none (s : SchedState) (j : Nat)
    (h : s.task_status j = none) : (s.cancel_live).task_status j = none := by
  rcases cancel_live_status_cases s j with hc | ⟨_, _, hpend⟩
  · rw [hc, h]
  · rw [h] at hpend
    exact Option.noConfusion hpend

theorem cancel_live_keeps_cancelled (s : SchedState) (j : Nat)
    (h : s.task_status j = some TaskStatus.cancelled) :
    (s.cancel_live).task_status j = some TaskStatus.cancelled := by
  rcases cancel_live_status_cases s j with hc | ⟨hc, _, _⟩
  · rw [hc, h]
  · exact hc

theorem sched_arm_invariant (s : SchedState) (hs : s.invariant) :
    (s.arm).invariant := by
  constructor
  · intro i hi
    have hin : s.next_id + 1 ≤ i := by
      have hcn := cancel_live_next_id s
      have : (s.cancel_live).next_id + 1 ≤ i := hi
      omega
    show (if i = (s.cancel_live).next_id then some TaskStatus.pending
      else (s.cancel_live).task_status i) = none
    rw [cancel_live_next_id s]
    have hne : ¬ i = s.next_id := by omega
    rw [if_neg hne]
    exact cancel_live_keeps_none s i (hs.1 i (by omega))
  · intro i hp
    have hpi : (if i = (s.cancel_live).next_id then some TaskStatus.pending
        else (s.cancel_live).task_status i) = some TaskStatus.pending := hp
    by_cases hie : i = (s.cancel_live).next_id
    · show some (s.cancel_live).next_id = some i
      rw [hie]
    · exfalso
      rw [if_neg hie] at hpi
      exact cancel_live_no_pending s hs i hpi

theorem sched_fire_invariant (s : SchedState) (i : Nat) (hs : s.invariant) :
    (s.fire i).1.invariant := by
  unfold SchedState.fire
  by_cases hp : s.task_status i = some TaskStatus.pending
  · rw [if_pos hp]
    constructor
    · intro j hj
      show (if j = i then some TaskStatus.done else s.task_status j) = none
      have hji : ¬ j = i := by
        intro hji
        rw [hji] at hj
        rw [hs.1 i hj] at hp
        exact Option.noConfusion hp
      rw [if_neg hji]
      exact hs.1 j hj
    · intro j hjp
      have hjp2 : (if j = i then some TaskStatus.done else s.task_status j)
          = some TaskStatus.pending := hjp
      by_cases hji : j = i
      · rw [if_pos hji] at hjp2
        exact absurd (Option.some.inj hjp2) (by simp)
      · rw [if_neg hji] at hjp2
        exact hs.2 j hjp2
  · rw [if_neg hp]
    exact hs

theorem sched_arm_keeps_cancelled (s : SchedState) (j : Nat)
    (hs : s.invariant) (hc : s.task_status j = some TaskStatus.cancelled) :
    (s.arm).task_status j = some TaskStatus.cancelled := by
  show (if j = (s.cancel_live).next_id then some TaskStatus.pending
    else (s.cancel_live).task_status j) = some TaskStatus.cancelled
  rw [cancel_live_next_id s]
  have hjn : ¬ j = s.next_id := by
    intro hj
    rw [hj, hs.1 s.next_id (le_refl _)] at hc
    exact Option.noConfusion hc
  rw [if_neg hjn]
  exact cancel_live_keeps_cancelled s j hc

theorem sched_fire_keeps_cancelled (s : SchedState) (i j : Nat)
    (hc : s.task_status j = some TaskStatus.cancelled) :
    (s.fire i).1.task_status j = some TaskStatus.cancelled := by
  unfold SchedState.fire
  by_cases hp : s.task_status i = some TaskStatus.pending
  · rw [if_pos hp]
    show (if j = i then some TaskStatus.done else s.task_status j)
      = some TaskStatus.cancelled
    have hji : ¬ j = i := by
      intro hji
      rw [hji, hp] at hc
      exact absurd (Option.some.inj hc) (by simp)
    rw [if_neg hji]
    exact hc
  · rw [if_neg hp]
    exact hc

theorem sched_run_keeps (evs : List SchedEvent) :
    ∀ (s : SchedState), s.invariant →
      (sched_run s evs).1.invariant ∧
      (∀ j, s.task_status j = some TaskStatus.cancelled →
        (sched_run s evs).1.task_status j = some TaskStatus.cancelled ∧
        j ∉ (sched_run s evs).2) := by
  induction evs with
  | nil =>
    intro s hs
    exact ⟨hs, fun j hj => ⟨hj, by simp [sched_run]⟩⟩
  | cons e rest ih =>
    intro s hs
    cases e with
    | arm =>
      have harm := sched_arm_invariant s hs
      obtain ⟨hinv, hkeep⟩ := ih s.arm harm
      exact ⟨hinv, fun j hj => hkeep j (sched_arm_keeps_cancelled s j hs hj)⟩
    | fire i =>
      have hfire := sched_fire_invariant s i hs
      obtain ⟨hinv, hkeep⟩ := ih (s.fire i).1 hfire
      refine ⟨hinv, fun j hj => ?_⟩
      obtain ⟨hj2, hj3⟩ := hkeep j (sched_fire_keeps_cancelled s i j hj)
      refine ⟨hj2, ?_⟩
      show ¬ j ∈ (if (s.fire i).2 then i :: (sched_run (s.fire i).1 rest).2
        else (sched_run (s.fire i).1 rest).2)
      by_cases hfi : (s.fire i).2 = true
      · rw [if_pos hfi]
        intro hmem
        rcases List.mem_cons.mp hmem with h | h
        · unfold SchedState.fire at hfi
          by_cases hp : s.task_status i = some TaskStatus.pending
          · rw [← h] at hp
            rw [hj] at hp
            exact absurd (Option.some.inj hp) (by simp)
          · rw [if_neg hp] at hfi
            exact Bool.noConfusion hfi
        · exact hj3 h
      · rw [if_neg hfi]
        exact hj3

/-- Claim C7: arming a ScheduledAction while a prior one is pending for
the same session first cancels the prior one; consequently, from any
state satisfying the scheduling invariant, (i) at most one task is
pending (in flight) at any reachable point of any event sequence, and
(ii) once a task is cancelled its move is never applied afterward. -/
theorem c7_arm_cancels_prior_at_most_one_in_flight :
    ∀ (evs : List SchedEvent) (s : SchedState), s.invariant →
      (∀ k, s.bot_task = some k →
        s.task_status k = some TaskStatus.pending →
        (s.arm).task_status k = some TaskStatus.cancelled ∧
        (s.arm).task_status s.next_id = some TaskStatus.pending) ∧
      (∀ i j, (sched_run s evs).1.task_status i = some TaskStatus.pending →
        (sched_run s evs).1.task_status j = some TaskStatus.pending → i = j) ∧
      (∀ j, s.task_status j = some TaskStatus.cancelled →
        j ∉ (sched_run s evs).2) := by
  intro evs s hs
  obtain ⟨hinv, hkeep⟩ := sched_run_keeps evs s hs
  refine ⟨?_, ?_, ?_⟩
  · intro k hb hp
    constructor
    · show (if k = (s.cancel_live).next_id then some TaskStatus.pending
        else (s.cancel_live).task_status k) = some TaskStatus.cancelled
      rw [cancel_live_next_id s]
      have hkn : ¬ k = s.next_id := by
        intro hk
        rw [hk, hs.1 s.next_id (le_refl _)] at hp
        exact Option.noConfusion hp
      rw [if_neg hkn]
      unfold SchedState.cancel_live
      rw [hb]
      simp [hp]
    · show (if s.next_id = (s.cancel_live).next_id then some TaskStatus.pending
        else (s.cancel_live).task_status s.next_id) = some TaskStatus.pending
      rw [cancel_live_next_id s, if_pos rfl]
  · intro i j hi hj
    have hbi := hinv.2 i hi
    have hbj := hinv.2 j hj
    rw [hbi] at hbj
    exact Option.some.inj hbj
  · intro j hj
    exact (hkeep j hj).2

/-- Witness for C7: after two arms, the first task is cancelled; firing
both tasks applies only the second task, never the cancelled first. -/
theorem c7_arm_cancels_prior_at_most_one_in_flight_witness :
    ((SchedState.initial.arm).arm.task_status 0 = some TaskStatus.cancelled ∧
      (SchedState.initial.arm).arm.task_status 1 = some TaskStatus.pending) ∧
    (0 ∉ (sched_run (SchedState.initial.arm).arm
      [SchedEvent.fire 0, SchedEvent.fire 1]).2) := by
  have hinv0 : SchedState.initial.invariant := sched_initial_invariant
  have hinv1 : (SchedState.initial.arm).invariant :=
    sched_arm_invariant _ hinv0
  have h := c7_arm_cancels_prior_at_most_one_in_flight
    [SchedEvent.fire 0, SchedEvent.fire 1] SchedState.initial.arm hinv1
  have harm := h.1 0 rfl rfl
  have h2 := c7_arm_cancels_prior_at_most_one_in_flight
    [SchedEvent.fire 0, SchedEvent.fire 1] (SchedState.initial.arm).arm
    (sched_arm_invariant _ hinv1)
  exact ⟨⟨harm.1, harm.2⟩, h2.2.2 0 harm.1⟩

end CodeRed

